import Mathlib

/-!
Shallow embedding of `src/renderer/BaseRenderLayer.ts` (xterm.js canvas
renderer base layer) and proofs about its cell-geometry computation, its
glyph draw-path selection, and its char-atlas refresh state machine.

Numbers that JavaScript holds as doubles (font metrics, device pixel ratio,
line-height multiplier) are modelled as rationals; `Math.ceil`, `Math.floor`
and `Math.round` become the integer-valued floor/ceil of `ℚ`.  Colors are
opaque naturals; atlas bitmaps and pending acquisition handles are opaque
naturals.  Canvas side effects of `drawChar` are reified as a list of emitted
draw commands.
-/

namespace XtermRender

/-- Source line 12: `export const INVERTED_DEFAULT_COLOR = -1;`. -/
def INVERTED_DEFAULT_COLOR : ℤ := -1

/-- Modelled from the spec: the fixed inter-cell spacing margin between atlas
cells (`CHAR_ATLAS_CELL_SPACING`, imported from `CharAtlas.ts`, which is
outside the provided sources).  No claim depends on its numeric value. -/
def CHAR_ATLAS_CELL_SPACING : ℤ := 1

/-- JavaScript `Math.round`: round half away from zero upwards,
`Math.round x = Math.floor (x + 0.5)`. -/
def jsRound (q : ℚ) : ℤ := ⌊q + 1 / 2⌋

/-- The four scaled-cell fields of the layer (source lines 17-20). -/
@[ext]
structure CellGeometry where
  scaledCharWidth : ℤ
  scaledCharHeight : ℤ
  scaledLineHeight : ℤ
  scaledLineDrawY : ℤ
deriving DecidableEq

/-- `IColorSet`: background, foreground and the 256-entry ansi palette.
Colors are opaque naturals; the palette is modelled as a total function on
the index, mirroring JavaScript array indexing in `colors.ansi[fg]`. -/
structure ColorSet where
  foreground : ℕ
  background : ℕ
  ansi : ℤ → ℕ

/-- The arguments the layer passes to the external `acquireCharAtlas`
(source line 56): the color set and the scaled character dimensions that
form the color/size components of the atlas key. -/
structure AtlasRequest where
  colors : ColorSet
  scaledCharWidth : ℤ
  scaledCharHeight : ℤ

/-- What the external `acquireCharAtlas` returned for one refresh: either a
canvas synchronously (an atlas bitmap, an opaque natural) or a pending
promise, identified by an opaque handle that a later completion resolves. -/
inductive AcquireResult where
  | sync (bitmap : ℕ)
  | async (handle : ℕ)

/-- The mutable fields of `BaseRenderLayer` that the modelled operations
touch: `this.colors`, the scaled-cell geometry, `this._charAtlas`
(`none` models the `null`/unset reference), the handles of pending
acquisitions whose `.then` callback is registered but has not fired, and the
backing canvas pixel dimensions. -/
structure LayerState where
  colors : ColorSet
  geometry : CellGeometry
  charAtlas : Option ℕ
  inFlight : List ℕ
  canvasWidth : ℤ
  canvasHeight : ℤ

/-- Source lines 68-79: the geometry part of `resize`.
`scaledCharWidth/Height = Math.ceil(metric * devicePixelRatio)`;
`scaledLineHeight = Math.floor(scaledCharHeight * lineHeight)`;
`scaledLineDrawY = lineHeight === 1 ? 0
                   : Math.round((scaledLineHeight - scaledCharHeight) / 2)`. -/
def computeGeometry (fontW fontH dpr lineH : ℚ) : CellGeometry :=
  let scw : ℤ := ⌈fontW * dpr⌉
  let sch : ℤ := ⌈fontH * dpr⌉
  let slh : ℤ := ⌊(sch : ℚ) * lineH⌋
  { scaledCharWidth := scw
    scaledCharHeight := sch
    scaledLineHeight := slh
    scaledLineDrawY := if lineH = 1 then 0 else jsRound (((slh : ℚ) - (sch : ℚ)) / 2) }

/-- Source lines 54-62, `_refreshCharAtlas`: set `this._charAtlas = null`,
call `acquireCharAtlas(terminal, this.colors, this.scaledCharWidth,
this.scaledCharHeight)`; install a synchronous result at once, otherwise
register `result.then(bitmap => this._charAtlas = bitmap)`.  The `colorSet`
parameter reproduces the source's parameter of that name, which the source
body never reads: the request is built from `this.colors`. -/
def refreshCharAtlas (st : LayerState) (colorSet : ColorSet) (acq : AcquireResult) :
    LayerState × AtlasRequest :=
  let req : AtlasRequest :=
    { colors := st.colors
      scaledCharWidth := st.geometry.scaledCharWidth
      scaledCharHeight := st.geometry.scaledCharHeight }
  match acq with
  | .sync bitmap => ({ st with charAtlas := some bitmap }, req)
  | .async handle => ({ st with charAtlas := none, inFlight := handle :: st.inFlight }, req)

/-- Source lines 45-47: `onThemeChanged` forwards the terminal and the new
color set to `_refreshCharAtlas`. -/
def onThemeChanged (st : LayerState) (colorSet : ColorSet) (acq : AcquireResult) :
    LayerState × AtlasRequest :=
  refreshCharAtlas st colorSet acq

/-- The `.then` callback of a pending acquisition firing with its bitmap
(source line 60): an unconditional assignment `this._charAtlas = bitmap`.
A handle that was never registered (or already fired) resolves nothing. -/
def completeAtlas (st : LayerState) (handle : ℕ) (bitmap : ℕ) : LayerState :=
  if handle ∈ st.inFlight then
    { st with charAtlas := some bitmap, inFlight := st.inFlight.erase handle }
  else st

/-- Source lines 64-96, `resize`: recompute the scaled geometry, set the
backing canvas pixel dimensions to `Math.round(logical * devicePixelRatio)`,
and, when `charSizeChanged`, call `_refreshCharAtlas(terminal, this.colors)`.
The second component collects the atlas requests the call issued. -/
def resize (st : LayerState) (canvasW canvasH fontW fontH dpr lineH : ℚ)
    (charSizeChanged : Bool) (acq : AcquireResult) : LayerState × List AtlasRequest :=
  let st1 : LayerState :=
    { st with
      geometry := computeGeometry fontW fontH dpr lineH
      canvasWidth := jsRound (canvasW * dpr)
      canvasHeight := jsRound (canvasH * dpr) }
  if charSizeChanged then
    let r := refreshCharAtlas st1 st1.colors acq
    (r.1, [r.2])
  else
    (st1, [])

/-- One external lifecycle event hitting the layer: a `resize` call, an
`onThemeChanged` call, or the asynchronous completion of a previously
pending atlas acquisition. -/
inductive Event where
  | resizeEv (canvasW canvasH fontW fontH dpr lineH : ℚ)
      (charSizeChanged : Bool) (acq : AcquireResult)
  | themeChangedEv (colorSet : ColorSet) (acq : AcquireResult)
  | completeAtlasEv (handle bitmap : ℕ)

/-- The state transition of one event. -/
def step (st : LayerState) : Event → LayerState
  | .resizeEv cw chh fw fh dpr lh csc acq => (resize st cw chh fw fh dpr lh csc acq).1
  | .themeChangedEv cs acq => (onThemeChanged st cs acq).1
  | .completeAtlasEv handle bitmap => completeAtlas st handle bitmap

/-- Running a sequence of events. -/
def run (st : LayerState) (evs : List Event) : LayerState :=
  evs.foldl step st

/-- Source lines 214-222: `colorIndex` starts at 0, becomes `fg + 2` when
`fg < 256`, else 1 when bold. -/
def colorSlot (fg : ℤ) (bold : Bool) : ℤ :=
  if fg < 256 then fg + 2 else if bold then 1 else 0

/-- A canvas effect emitted by `drawChar`: a `clearCells` call (cell
coordinates), the `ctx.drawImage` atlas blit (the possibly null atlas
reference, source pixel coordinates in the atlas, destination pixel
coordinates), or the clipped `ctx.fillText` of `_drawUncachedChar` (the
character, the resolved `fillStyle` color, the cell position and the clip
width in cells). -/
inductive DrawCmd where
  | clearCells (x y w h : ℤ)
  | drawImage (atlas : Option ℕ) (srcX srcY dstX dstY : ℤ)
  | fillTextClipped (ch : String) (fillStyle : ℕ) (x y clipW : ℤ)
deriving DecidableEq

/-- Whether a command is the atlas blit. -/
def DrawCmd.isAtlasBlit : DrawCmd → Bool
  | .drawImage _ _ _ _ _ => true
  | _ => false

/-- Whether a command is a `clearCells` call. -/
def DrawCmd.isClear : DrawCmd → Bool
  | .clearCells _ _ _ _ => true
  | _ => false

/-- The fill style of a direct-draw command, if it is one. -/
def fillStyleOf : DrawCmd → Option ℕ
  | .fillTextClipped _ s _ _ _ => some s
  | _ => none

/-- The fill styles of the direct-draw commands in an effect list. -/
def directFillStyles (cmds : List DrawCmd) : List ℕ :=
  cmds.filterMap fillStyleOf

/-- Source lines 257-264: the `fillStyle` that `_drawUncachedChar` selects —
background for the inverted-default sentinel, `ansi[fg]` below 256, else the
default foreground. -/
def uncachedFillStyle (colors : ColorSet) (fg : ℤ) : ℕ :=
  if fg = INVERTED_DEFAULT_COLOR then colors.background
  else if fg < 256 then colors.ansi fg
  else colors.foreground

/-- Source lines 252-277, `_drawUncachedChar`: select the fill style, clip to
the `width`-cell destination rectangle and fill the text there. -/
def drawUncachedChar (st : LayerState) (ch : String) (width fg x y : ℤ) : DrawCmd :=
  .fillTextClipped ch (uncachedFillStyle st.colors fg) x y width

/-- Source lines 208-239, `drawChar`: clear the continuation cell when the
character is wide, then either blit from the (possibly absent) atlas — when
`code < 256` and the color is a basic color (`colorIndex > 1 && fg < 16`) or
the default color (`fg >= 256`) — or fall back to `_drawUncachedChar`. -/
def drawChar (st : LayerState) (ch : String) (code width x y fg : ℤ) (bold : Bool) :
    List DrawCmd :=
  (if width = 2 then [DrawCmd.clearCells (x + 1) y 1 1] else []) ++
    (if code < 256 ∧ ((1 < colorSlot fg bold ∧ fg < 16) ∨ 256 ≤ fg) then
      [DrawCmd.drawImage st.charAtlas
        (code * (st.geometry.scaledCharWidth + CHAR_ATLAS_CELL_SPACING))
        (colorSlot fg bold * (st.geometry.scaledCharHeight + CHAR_ATLAS_CELL_SPACING))
        (x * st.geometry.scaledCharWidth)
        (y * st.geometry.scaledLineHeight + st.geometry.scaledLineDrawY)]
    else
      [drawUncachedChar st ch width fg x y])

/-- A concrete color set used for concrete evaluations. -/
def sampleColors : ColorSet :=
  { foreground := 100, background := 200, ansi := fun i => 300 + i.natAbs }

/-- A second, different color set (a new theme). -/
def newColors : ColorSet :=
  { foreground := 101, background := 201, ansi := fun i => 400 + i.natAbs }

/-- A concrete geometry: 9x17 cells, line-height multiplier 1. -/
def sampleGeometry : CellGeometry :=
  { scaledCharWidth := 9, scaledCharHeight := 17, scaledLineHeight := 17, scaledLineDrawY := 0 }

/-- A concrete layer state that holds an atlas (bitmap 7) and has no pending
acquisition. -/
def sampleState : LayerState :=
  { colors := sampleColors, geometry := sampleGeometry, charAtlas := some 7
    inFlight := [], canvasWidth := 0, canvasHeight := 0 }

/-- A concrete layer state with no atlas held and one acquisition pending
(handle 1): the state right after an asynchronous refresh. -/
def atlaslessState : LayerState :=
  { colors := sampleColors, geometry := sampleGeometry, charAtlas := none
    inFlight := [1], canvasWidth := 0, canvasHeight := 0 }

/-- The `drawChar` effect list contains the atlas blit exactly when
`code < 256` and the color slot is a basic slot (`> 1` with `fg < 16`) or the
foreground is the default (`fg ≥ 256`). -/
theorem drawChar_any_blit (st : LayerState) (ch : String) (code width x y fg : ℤ)
    (bold : Bool) :
    (drawChar st ch code width x y fg bold).any DrawCmd.isAtlasBlit = true
      ↔ code < 256 ∧ ((1 < colorSlot fg bold ∧ fg < 16) ∨ 256 ≤ fg) := by
  unfold drawChar
  split_ifs <;> simp_all [DrawCmd.isAtlasBlit, drawUncachedChar]

/-- When the blit eligibility fails, `drawChar` emits exactly one direct-draw
fill, with the style `_drawUncachedChar` selects. -/
theorem drawChar_fill (st : LayerState) (ch : String) (code width x y fg : ℤ)
    (bold : Bool)
    (h : ¬(code < 256 ∧ ((1 < colorSlot fg bold ∧ fg < 16) ∨ 256 ≤ fg))) :
    directFillStyles (drawChar st ch code width x y fg bold)
      = [uncachedFillStyle st.colors fg] := by
  unfold drawChar
  split_ifs <;>
    simp_all [directFillStyles, fillStyleOf, drawUncachedChar]

/-- C1: the color slot is `fg + 2` when `fg < 256`, else 1 when bold, else 0;
the atlas-blit path is taken iff `code < 256` and (the slot is a basic slot
with `fg < 16`, or `fg ≥ 256`); for `code = 65, fg = 5` the atlas path is
taken with slot 7, and for `code = 65, fg = 200` the direct-draw path is
taken with fill color `ansi[200]`. -/
theorem claim_c1 (st : LayerState) (ch : String) (code width x y fg : ℤ) (bold : Bool) :
    colorSlot fg bold = (if fg < 256 then fg + 2 else if bold then 1 else 0)
    ∧ ((drawChar st ch code width x y fg bold).any DrawCmd.isAtlasBlit = true
        ↔ code < 256 ∧ ((1 < colorSlot fg bold ∧ fg < 16) ∨ 256 ≤ fg))
    ∧ ((drawChar st ch 65 width x y 5 bold).any DrawCmd.isAtlasBlit = true
        ∧ colorSlot 5 bold = 7)
    ∧ ((drawChar st ch 65 width x y 200 bold).any DrawCmd.isAtlasBlit = false
        ∧ directFillStyles (drawChar st ch 65 width x y 200 bold) = [st.colors.ansi 200]) := by
  refine ⟨rfl, drawChar_any_blit st ch code width x y fg bold, ⟨?_, ?_⟩, ⟨?_, ?_⟩⟩
  · exact (drawChar_any_blit st ch 65 width x y 5 bold).mpr (by norm_num [colorSlot])
  · norm_num [colorSlot]
  · rw [Bool.eq_false_iff]
    intro hb
    have h := (drawChar_any_blit st ch 65 width x y 200 bold).mp hb
    norm_num [colorSlot] at h
  · rw [drawChar_fill st ch 65 width x y 200 bold (by norm_num [colorSlot])]
    norm_num [uncachedFillStyle, INVERTED_DEFAULT_COLOR]

/-- C1 witness: the characterization instantiated at a concrete state. -/
theorem claim_c1_witness :
    (drawChar sampleState "A" 65 1 3 2 5 false).any DrawCmd.isAtlasBlit = true
      ∧ colorSlot 5 false = 7 :=
  (claim_c1 sampleState "A" 65 1 3 2 5 false).2.2.1

/-- C2: evaluation at the failing input.  With no atlas held
(`charAtlas = none`) a blit-eligible draw (`code = 65, fg = 5`) still takes
the atlas path: the emitted command passes the absent atlas to
`ctx.drawImage`, and no direct-draw command is emitted — the code does not
fall back to direct-draw, contradicting the claim. -/
theorem claim_c2_eval :
    atlaslessState.charAtlas = none
    ∧ drawChar atlaslessState "A" 65 1 3 2 5 false
        = [DrawCmd.drawImage none 650 126 27 34]
    ∧ directFillStyles (drawChar atlaslessState "A" 65 1 3 2 5 false) = [] :=
  ⟨rfl, rfl, rfl⟩

/-- C10: for the inverted-default sentinel `fg = -1` the slot is
`-1 + 2 = 1`, the blit eligibility is false for every code point, and the
direct-draw fill is the background color. -/
theorem claim_c10 (st : LayerState) (ch : String) (code width x y : ℤ) (bold : Bool) :
    INVERTED_DEFAULT_COLOR = -1
    ∧ colorSlot INVERTED_DEFAULT_COLOR bold = INVERTED_DEFAULT_COLOR + 2
    ∧ colorSlot INVERTED_DEFAULT_COLOR bold = 1
    ∧ (drawChar st ch code width x y INVERTED_DEFAULT_COLOR bold).any DrawCmd.isAtlasBlit
        = false
    ∧ directFillStyles (drawChar st ch code width x y INVERTED_DEFAULT_COLOR bold)
        = [st.colors.background] := by
  refine ⟨rfl, by norm_num [colorSlot, INVERTED_DEFAULT_COLOR], ?_, ?_, ?_⟩
  · norm_num [colorSlot, INVERTED_DEFAULT_COLOR]
  · rw [Bool.eq_false_iff]
    intro hb
    have h := (drawChar_any_blit st ch code width x y INVERTED_DEFAULT_COLOR bold).mp hb
    norm_num [colorSlot, INVERTED_DEFAULT_COLOR] at h
  · rw [drawChar_fill st ch code width x y INVERTED_DEFAULT_COLOR bold
      (by norm_num [colorSlot, INVERTED_DEFAULT_COLOR])]
    norm_num [uncachedFillStyle]

/-- C10 witness: the sentinel characterization at a concrete state. -/
theorem claim_c10_witness :
    directFillStyles (drawChar sampleState "x" 120 1 0 0 INVERTED_DEFAULT_COLOR false)
      = [sampleState.colors.background] :=
  (claim_c10 sampleState "x" 120 1 0 0 false).2.2.2.2

/-- C8: a wide draw (`width = 2`) emits the clear of the single continuation
cell at `(x+1, y)` as its first command, before the glyph draw that follows
(the rest is non-empty and contains no further clear), on either draw path;
a one-cell draw clears no cell and still draws a glyph command. -/
theorem claim_c8 (st : LayerState) (ch : String) (code x y fg : ℤ) (bold : Bool) :
    (drawChar st ch code 2 x y fg bold).head? = some (DrawCmd.clearCells (x + 1) y 1 1)
    ∧ (drawChar st ch code 2 x y fg bold).tail.all (fun c => ! c.isClear) = true
    ∧ (drawChar st ch code 2 x y fg bold).tail ≠ []
    ∧ (drawChar st ch code 1 x y fg bold).all (fun c => ! c.isClear) = true
    ∧ drawChar st ch code 1 x y fg bold ≠ [] := by
  refine ⟨?_, ?_, ?_, ?_, ?_⟩ <;>
    (unfold drawChar; split_ifs <;> simp_all [DrawCmd.isClear, drawUncachedChar])

/-- C9: `resize` is idempotent — repeating it with the same arguments leaves
the state exactly as after one call, with `charSizeChanged = false` it issues
no atlas request and leaves the held atlas untouched, and for any value of
`charSizeChanged` the geometry of the repeated call equals the geometry of
the single call. -/
theorem claim_c9 (st : LayerState) (cw chh fw fh dpr lh : ℚ) (acq1 acq2 : AcquireResult) :
    (resize (resize st cw chh fw fh dpr lh false acq1).1 cw chh fw fh dpr lh false acq2).1
        = (resize st cw chh fw fh dpr lh false acq1).1
    ∧ (resize (resize st cw chh fw fh dpr lh false acq1).1 cw chh fw fh dpr lh false acq2).2
        = []
    ∧ (resize st cw chh fw fh dpr lh false acq1).1.charAtlas = st.charAtlas
    ∧ ∀ (csc : Bool) (acq3 acq4 : AcquireResult),
        (resize (resize st cw chh fw fh dpr lh csc acq3).1 cw chh fw fh dpr lh csc
            acq4).1.geometry
          = (resize st cw chh fw fh dpr lh csc acq3).1.geometry := by
  refine ⟨rfl, rfl, rfl, ?_⟩
  intro csc acq3 acq4
  cases csc
  · rfl
  · cases acq3 <;> cases acq4 <;> rfl

/-- C5: evaluation at the failing input.  `onThemeChanged` with a new color
set issues an atlas request built from the previously stored `this.colors`
(foreground 100), not from the newly supplied set (foreground 101): the
`colorSet` parameter is ignored by `_refreshCharAtlas`, contradicting the
claim. -/
theorem claim_c5_eval :
    (onThemeChanged sampleState newColors (.async 5)).2.colors.foreground
        = sampleState.colors.foreground
    ∧ sampleState.colors.foreground = 100
    ∧ newColors.foreground = 101
    ∧ ¬ (onThemeChanged sampleState newColors (.async 5)).2.colors.foreground
        = newColors.foreground :=
  ⟨rfl, rfl, rfl, by decide⟩

/-- C3 counterexample: a layer holding atlas 7 receives a theme change whose
acquisition is asynchronous; contrary to the claim, the previously active
atlas does not remain held between request and completion — the reference is
nulled at request time. -/
theorem claim_c3_cex :
    sampleState.charAtlas = some 7
    ∧ ¬ (onThemeChanged sampleState newColors (.async 1)).1.charAtlas = some 7
    ∧ (onThemeChanged sampleState newColors (.async 1)).1.charAtlas = none :=
  ⟨rfl, by decide, rfl⟩

/-- Whether an event can install an atlas bitmap: a pending completion firing,
or a refresh whose acquisition returns synchronously. -/
def maySetAtlas : Event → Bool
  | .completeAtlasEv _ _ => true
  | .themeChangedEv _ (.sync _) => true
  | .resizeEv _ _ _ _ _ _ true (.sync _) => true
  | _ => false

/-- An absent atlas stays absent while no completion fires and no synchronous
acquisition happens. -/
theorem run_charAtlas_none (evs : List Event) :
    ∀ st : LayerState, st.charAtlas = none → (∀ e ∈ evs, maySetAtlas e = false) →
      (run st evs).charAtlas = none := by
  induction evs with
  | nil => exact fun st h _ => h
  | cons e evs ih =>
    intro st h hall
    have he := hall e (List.mem_cons_self e evs)
    have hall2 : ∀ x ∈ evs, maySetAtlas x = false :=
      fun x hx => hall x (List.mem_cons_of_mem e hx)
    cases e with
    | resizeEv cw chh fw fh dpr lh csc acq =>
      cases csc
      · exact ih _ (by simp [step, resize, h]) hall2
      · cases acq
        · simp [maySetAtlas] at he
        · exact ih _ (by simp [step, resize, refreshCharAtlas]) hall2
    | themeChangedEv cs acq =>
      cases acq
      · simp [maySetAtlas] at he
      · exact ih _ (by simp [step, onThemeChanged, refreshCharAtlas]) hall2
    | completeAtlasEv handle bitmap => simp [maySetAtlas] at he

/-- C3 amended: when a refresh's acquisition does not complete synchronously,
the held atlas reference is nulled at request time — the layer holds no
atlas at every step between the request and the first completion or
synchronous acquisition, even if it previously held one. -/
theorem claim_c3_amended (st : LayerState) (cs : ColorSet) (handle : ℕ)
    (evs : List Event) (hev : ∀ e ∈ evs, maySetAtlas e = false) :
    (run (onThemeChanged st cs (.async handle)).1 evs).charAtlas = none :=
  run_charAtlas_none evs _ rfl hev

/-- Events of the C3 witness: a second asynchronous theme change and a resize
without char-size change. -/
def quietEvents : List Event :=
  [Event.themeChangedEv newColors (.async 2),
   Event.resizeEv 10 10 4 8 2 1 false (.async 3)]

/-- C3 amended, witness: the window after a concrete asynchronous refresh. -/
theorem claim_c3_amended_witness :
    (∀ e ∈ quietEvents, maySetAtlas e = false)
    ∧ (run (onThemeChanged sampleState newColors (.async 1)).1 quietEvents).charAtlas
        = none := by
  have h : ∀ e ∈ quietEvents, maySetAtlas e = false := by
    intro e he
    simp only [quietEvents, List.mem_cons, List.not_mem_nil, or_false] at he
    rcases he with rfl | rfl <;> rfl
  exact ⟨h, claim_c3_amended sampleState newColors 1 quietEvents h⟩

/-- The race of C4: two theme changes whose acquisitions are both pending,
then the second request's completion (bitmap 22) arrives, then the first
request's completion (bitmap 11) arrives. -/
def raceTrace : List Event :=
  [Event.themeChangedEv newColors (.async 1),
   Event.themeChangedEv newColors (.async 2),
   Event.completeAtlasEv 2 22,
   Event.completeAtlasEv 1 11]

/-- C4 counterexample: in the race, after both completions the held atlas is
the FIRST request's bitmap 11 — the completion that arrived last — not the
second request's bitmap 22 as the claim states; the superseded completion is
not discarded. -/
theorem claim_c4_cex :
    (run sampleState raceTrace).charAtlas = some 11
    ∧ ¬ (run sampleState raceTrace).charAtlas = some 22 :=
  ⟨rfl, by decide⟩

/-- C4 amended: each completion whose handle is pending unconditionally
installs its bitmap, so after the two-request race the held atlas is the one
whose completion arrived last — the first request's result overwrites the
second's when it arrives later; nothing is discarded. -/
theorem claim_c4_amended :
    (∀ (st : LayerState) (cs1 cs2 : ColorSet) (id1 id2 b1 b2 : ℕ),
      (run st [Event.themeChangedEv cs1 (.async id1), Event.themeChangedEv cs2 (.async id2),
          Event.completeAtlasEv id2 b2, Event.completeAtlasEv id1 b1]).charAtlas = some b1)
    ∧ (∀ (st : LayerState) (handle bitmap : ℕ), handle ∈ st.inFlight →
        (completeAtlas st handle bitmap).charAtlas = some bitmap) := by
  constructor
  · intro st cs1 cs2 id1 id2 b1 b2
    simp [run, step, onThemeChanged, refreshCharAtlas, completeAtlas,
      List.erase_cons_head]
  · intro st handle bitmap h
    simp [completeAtlas, h]

/-- C4 amended, witness: a concrete pending completion installs its bitmap. -/
theorem claim_c4_amended_witness :
    1 ∈ atlaslessState.inFlight
    ∧ (completeAtlas atlaslessState 1 42).charAtlas = some 42 :=
  ⟨by decide, claim_c4_amended.2 atlaslessState 1 42 (by decide)⟩

/-- Modelled from the spec words, the refinement target for C6: scaled cell
dimensions are ceilings of metric times device pixel ratio; the line height
is the floored product when the multiplier differs from 1 and exactly the
char height when it is 1; the draw offset is 0 when the multiplier is 1 and
half the excess, rounded, otherwise. -/
def cellGeometrySpec (fontW fontH dpr lineH : ℚ) : CellGeometry :=
  let scw : ℤ := ⌈fontW * dpr⌉
  let sch : ℤ := ⌈fontH * dpr⌉
  let slh : ℤ := if lineH = 1 then sch else ⌊(sch : ℚ) * lineH⌋
  { scaledCharWidth := scw
    scaledCharHeight := sch
    scaledLineHeight := slh
    scaledLineDrawY := if lineH = 1 then 0 else jsRound (((slh : ℚ) - (sch : ℚ)) / 2) }

/-- C6: the geometry the source computes coincides with the spec's
description — in particular the source's unconditional
`floor(scaledCharHeight * lineHeight)` equals exactly `scaledCharHeight`
when the multiplier is 1. -/
theorem claim_c6 (fontW fontH dpr lineH : ℚ) :
    computeGeometry fontW fontH dpr lineH = cellGeometrySpec fontW fontH dpr lineH := by
  unfold computeGeometry cellGeometrySpec
  by_cases h : lineH = 1
  · subst h
    simp [mul_one, Int.floor_intCast]
  · simp [h]

/-- The geometry invariant of the spec: the scaled line height is at least
the scaled character height. -/
def geomInv (g : CellGeometry) : Prop :=
  g.scaledCharHeight ≤ g.scaledLineHeight

instance (g : CellGeometry) : Decidable (geomInv g) :=
  inferInstanceAs (Decidable (_ ≤ _))

/-- A fresh geometry satisfies the invariant whenever the font height and
device pixel ratio are nonnegative and the line-height multiplier is at
least 1. -/
theorem computeGeometry_inv (fontW fontH dpr lineH : ℚ)
    (hfh : 0 ≤ fontH) (hdpr : 0 ≤ dpr) (hlh : 1 ≤ lineH) :
    geomInv (computeGeometry fontW fontH dpr lineH) := by
  have hsch : (0 : ℤ) ≤ ⌈fontH * dpr⌉ := Int.ceil_nonneg (mul_nonneg hfh hdpr)
  show ⌈fontH * dpr⌉ ≤ ⌊(⌈fontH * dpr⌉ : ℚ) * lineH⌋
  rw [Int.le_floor]
  calc ((⌈fontH * dpr⌉ : ℤ) : ℚ) = (⌈fontH * dpr⌉ : ℤ) * 1 := (mul_one _).symm
    _ ≤ ((⌈fontH * dpr⌉ : ℤ) : ℚ) * lineH := by
        apply mul_le_mul_of_nonneg_left hlh
        exact_mod_cast hsch

/-- The precondition of an event under which the geometry invariant is
preserved: a resize carries nonnegative font height and device pixel ratio
and a line-height multiplier of at least 1; other events are unconstrained. -/
def validEvent : Event → Prop
  | .resizeEv _ _ _ fontH dpr lineH _ _ => 0 ≤ fontH ∧ 0 ≤ dpr ∧ 1 ≤ lineH
  | _ => True

/-- One valid event preserves the geometry invariant. -/
theorem geomInv_step (st : LayerState) (e : Event)
    (hst : geomInv st.geometry) (he : validEvent e) : geomInv (step st e).geometry := by
  cases e with
  | resizeEv cw chh fw fh dpr lh csc acq =>
    obtain ⟨h1, h2, h3⟩ := he
    have hg : (step st (.resizeEv cw chh fw fh dpr lh csc acq)).geometry
        = computeGeometry fw fh dpr lh := by
      cases csc <;> cases acq <;> rfl
    rw [hg]
    exact computeGeometry_inv fw fh dpr lh h1 h2 h3
  | themeChangedEv cs acq =>
    have hg : (step st (.themeChangedEv cs acq)).geometry = st.geometry := by
      cases acq <;> rfl
    rwa [hg]
  | completeAtlasEv handle bitmap =>
    have hg : (step st (.completeAtlasEv handle bitmap)).geometry = st.geometry := by
      show (completeAtlas st handle bitmap).geometry = st.geometry
      unfold completeAtlas
      split <;> rfl
    rwa [hg]

/-- C7: a resize with nonnegative metrics and multiplier at least 1 yields
`scaledLineHeight ≥ scaledCharHeight`, and the invariant holds of the
layer's geometry after every run of valid events from an invariant state. -/
theorem claim_c7 :
    (∀ fontW fontH dpr lineH : ℚ, 0 ≤ fontH → 0 ≤ dpr → 1 ≤ lineH →
      (computeGeometry fontW fontH dpr lineH).scaledCharHeight
        ≤ (computeGeometry fontW fontH dpr lineH).scaledLineHeight)
    ∧ ∀ (st : LayerState) (evs : List Event), geomInv st.geometry →
        (∀ e ∈ evs, validEvent e) → geomInv (run st evs).geometry := by
  refine ⟨computeGeometry_inv, ?_⟩
  intro st evs
  induction evs generalizing st with
  | nil => exact fun h _ => h
  | cons e evs ih =>
    intro h hall
    exact ih (step st e) (geomInv_step st e h (hall e (List.mem_cons_self e evs)))
      (fun x hx => hall x (List.mem_cons_of_mem e hx))

/-- Events of the C7 witness: one resize with fractional metrics and one
theme change. -/
def c7Events : List Event :=
  [Event.resizeEv 10 20 4 (17 / 2) 2 (3 / 2) true (.sync 9),
   Event.themeChangedEv newColors (.async 4)]

/-- C7 witness: the invariant at concrete fractional inputs and over a
concrete event run. -/
theorem claim_c7_witness :
    ((0 : ℚ) ≤ 17 / 2 ∧ (0 : ℚ) ≤ 2 ∧ (1 : ℚ) ≤ 3 / 2)
    ∧ (computeGeometry 4 (17 / 2) 2 (3 / 2)).scaledCharHeight
        ≤ (computeGeometry 4 (17 / 2) 2 (3 / 2)).scaledLineHeight
    ∧ (geomInv sampleState.geometry ∧ ∀ e ∈ c7Events, validEvent e)
    ∧ geomInv (run sampleState c7Events).geometry := by
  have h1 : (0 : ℚ) ≤ 17 / 2 := by norm_num
  have h2 : (0 : ℚ) ≤ 2 := by norm_num
  have h3 : (1 : ℚ) ≤ 3 / 2 := by norm_num
  have hinv : geomInv sampleState.geometry := by decide
  have hall : ∀ e ∈ c7Events, validEvent e := by
    intro e he
    simp only [c7Events, List.mem_cons, List.not_mem_nil, or_false] at he
    rcases he with rfl | rfl
    · exact ⟨h1, h2, h3⟩
    · trivial
  exact ⟨⟨h1, h2, h3⟩, claim_c7.1 4 (17 / 2) 2 (3 / 2) h1 h2 h3, ⟨hinv, hall⟩,
    claim_c7.2 sampleState c7Events hinv hall⟩

end XtermRender
